import Mathlib

/-!
# Package `blast`: data source resolution and the status loop

A shallow embedding of `data.go` and `loop-status.go`.

* Go strings are lists of characters. Positions count characters; the code
  uses a position only to slice the string that `strings.Index` searched, at
  the one-byte separator `/`.
* The objects that live outside the `Blaster` struct (the wait group, the
  ticker, the output sink, closers, the file system, the remote opener) are
  observed through a trace of the calls made on them, in program order.
* The collaborators whose code is not part of these two files are collected in
  `Env`: the remote opener `b.gcs`, `os.Open`, `(*csv.Reader).Read`, the
  rendering of `b.Stats()` and the rendering of a float64 by the verb `%.0f`.
-/

namespace Blast

/-- A Go string. -/
abbrev GoString := List Char

/-! ## Package `strings` and slice expressions -/

/-- Search loop of `strings.Index`: the position of the first occurrence of
`substr` in the remaining input, counted from `i`, or `-1`. -/
def indexAux (substr : GoString) : GoString → Nat → Int
  | [], i => if substr = [] then (i : Int) else -1
  | c :: cs, i =>
    if substr.isPrefixOf (c :: cs) then (i : Int) else indexAux substr cs (i + 1)

/-- Go `strings.Index(s, substr)`. -/
def stringsIndex (s substr : GoString) : Int := indexAux substr s 0

/-- Go `strings.Contains(s, substr)`, that is `Index(s, substr) >= 0`. -/
def stringsContains (s substr : GoString) : Bool := decide (0 ≤ stringsIndex s substr)

/-- Go `strings.HasPrefix(s, p)`. -/
def stringsHasPrefix (s p : GoString) : Bool := p.isPrefixOf s

/-- Go `strings.TrimPrefix(s, p)`. -/
def stringsTrimPrefix (s p : GoString) : GoString :=
  if stringsHasPrefix s p then s.drop p.length else s

/-- The slice expression `s[:hi]`; `none` is the run-time panic
"slice bounds out of range". -/
def sliceTo (s : GoString) (hi : Int) : Option GoString :=
  if 0 ≤ hi ∧ hi ≤ (s.length : Int) then some (s.take hi.toNat) else none

/-- The slice expression `s[lo:]`; `none` is the run-time panic
"slice bounds out of range". -/
def sliceFrom (s : GoString) (lo : Int) : Option GoString :=
  if 0 ≤ lo ∧ lo ≤ (s.length : Int) then some (s.drop lo.toNat) else none

/-! ## Errors (`github.com/pkg/errors`) -/

/-- An error value: a plain error, or one wrapped by `errors.WithStack`. -/
inductive Error where
  | plain (msg : GoString)
  | withStack (cause : Error)
  deriving DecidableEq, Repr

/-- Go `errors.WithStack(err)` for a non-nil `err`. -/
def errorsWithStack (err : Error) : Error := Error.withStack err

/-- Go `errors.Cause(err)`: the innermost error. -/
def errorsCause : Error → Error
  | Error.withStack e => errorsCause e
  | Error.plain m => Error.plain m

/-! ## Readers -/

/-- An `io.Reader` value: the bytes it will deliver, and, when its dynamic
type also satisfies `io.Closer`, the handle that `Close` releases. -/
structure Reader where
  data : GoString
  closer : Option Nat
  deriving DecidableEq, Repr

/-- Go `strings.NewReader(s)`: `*strings.Reader` has no `Close` method. -/
def stringsNewReader (s : GoString) : Reader := { data := s, closer := none }

/-- The state of a `*csv.Reader`. -/
structure CsvReader where
  r : Reader
  FieldsPerRecord : Int
  deriving DecidableEq, Repr

/-- Go `csv.NewReader(r)`. -/
def csvNewReader (r : Reader) : CsvReader := { r := r, FieldsPerRecord := 0 }

/-- A float64, by its IEEE 754 bit pattern. -/
structure Float64 where
  bits : Nat
  deriving DecidableEq, Repr

/-! ## Collaborators -/

/-- The code outside the two files that they call. -/
structure Env where
  /-- The method `b.gcs.open(ctx, bucket, handle)`: an error, or a reader (possibly nil). -/
  gcsOpen : GoString → GoString → Except Error (Option Reader)
  /-- The call `os.Open(name)`: an error, or an open file. -/
  osOpen : GoString → Except Error Reader
  /-- The method `(*csv.Reader).Read`: a record or an error, and the advanced reader. -/
  csvRead : CsvReader → Except Error (List GoString) × CsvReader
  /-- The text `fmt.Fprint` writes for the value of the k-th call of `b.Stats()`. -/
  stats : Nat → GoString
  /-- The text the verb `%.0f` produces for a float64. -/
  fmtFloat0 : Float64 → GoString

/-! ## The trace of calls on external objects -/

/-- Which `fmt` function performed a write. -/
inductive Printer where
  | Fprint
  | Fprintln
  | Fprintf
  deriving DecidableEq, Repr

/-- One call on an object outside the `Blaster` struct. -/
inductive Event where
  | gcsOpen (bucket handle : GoString)
  | osOpen (name : GoString)
  | close (c : Nat)
  | stats
  | write (p : Printer) (w : Nat) (text : GoString)
  | waitAdd (delta : Int)
  | waitDone
  | newTicker (seconds : Nat)
  | tickerStop
  | go
  deriving DecidableEq, Repr

/-- How many times `Close` was invoked on closer `c`. -/
def closeCount (c : Nat) (trace : List Event) : Nat := trace.count (Event.close c)

/-- How many times `b.Stats()` was invoked. -/
def statsCalls (trace : List Event) : Nat := trace.count Event.stats

/-- The bytes received by sink `w`, in order (an in-memory buffer that starts empty). -/
def sinkContent (w : Nat) : List Event → GoString
  | [] => []
  | Event.write _ w1 text :: rest =>
    if w1 = w then text ++ sinkContent w rest else sinkContent w rest
  | _ :: rest => sinkContent w rest

/-! ## The Blaster -/

/-- The fields of `Blaster` that the two files use. Sinks, input sources and
closers are handles. -/
structure Blaster where
  Quiet : Bool
  outWriter : Option Nat
  inputReader : Option Nat
  Rate : Float64
  Headers : List GoString
  dataReader : Option CsvReader
  dataCloser : Option Nat
  deriving DecidableEq, Repr

/-- The Blaster together with the calls made so far. -/
structure State where
  b : Blaster
  trace : List Event
  deriving DecidableEq, Repr

/-- How a call ends: it returns its `error` result, or the goroutine panics. -/
inductive Outcome where
  | returned (err : Option Error)
  | panicked
  deriving DecidableEq, Repr

/-- Append one call to the trace. -/
def State.emit (s : State) (e : Event) : State := { s with trace := s.trace ++ [e] }

/-! ## data.go -/

/-- `func (b *Blaster) ReadHeaders() error`. With a nil `b.dataReader` the call
`b.dataReader.Read()` dereferences a nil pointer. -/
def ReadHeaders (env : Env) (s : State) : Outcome × State :=
  match s.b.dataReader with
  | none => (Outcome.panicked, s)
  | some rd =>
    match env.csvRead rd with
    | (Except.error err, rd1) =>
      (Outcome.returned (some (errorsWithStack err)),
        { s with b := { s.b with dataReader := some rd1 } })
    | (Except.ok h, rd1) =>
      (Outcome.returned none,
        { s with b := { s.b with dataReader := some rd1, Headers := h } })

/-- `func (b *Blaster) SetData(r io.Reader)`. -/
def SetData (s : State) (r : Option Reader) : State :=
  match r with
  | none => { s with b := { s.b with dataReader := none, dataCloser := none } }
  | some rd =>
    match rd.closer with
    | some c =>
      { s with b := { s.b with dataReader := some (csvNewReader rd), dataCloser := some c } }
    | none =>
      { s with b := { s.b with dataReader := some (csvNewReader rd), dataCloser := none } }

/-- The marker `"gs://"`. -/
def gsScheme : GoString := ['g', 's', ':', '/', '/']

/-- The tail of `openData` after `r` has been chosen: `b.SetData(r)`, then the
optional header read. -/
def openDataFinish (env : Env) (s : State) (r : Option Reader) (headers : Bool) :
    Outcome × State :=
  let s1 := SetData s r
  if headers then
    match ReadHeaders env s1 with
    | (Outcome.returned (some err), s2) => (Outcome.returned (some err), s2)
    | (Outcome.returned none, s2) => (Outcome.returned none, s2)
    | (Outcome.panicked, s2) => (Outcome.panicked, s2)
  else (Outcome.returned none, s1)

/-- `func (b *Blaster) openData(ctx context.Context, value string, headers bool) error`. -/
def openData (env : Env) (s : State) (value : GoString) (headers : Bool) : Outcome × State :=
  if value = [] then (Outcome.returned none, s)
  else if stringsContains value ['\n'] then
    openDataFinish env s (some (stringsNewReader value)) headers
  else if stringsHasPrefix value gsScheme then
    let name := stringsTrimPrefix value gsScheme
    match sliceTo name (stringsIndex name ['/']) with
    | none => (Outcome.panicked, s)
    | some bucket =>
      match sliceFrom name (stringsIndex name ['/'] + 1) with
      | none => (Outcome.panicked, s)
      | some handle =>
        let s1 := s.emit (Event.gcsOpen bucket handle)
        match env.gcsOpen bucket handle with
        | Except.error err => (Outcome.returned (some (errorsWithStack err)), s1)
        | Except.ok gr => openDataFinish env s1 gr headers
  else
    let s1 := s.emit (Event.osOpen value)
    match env.osOpen value with
    | Except.error err => (Outcome.returned (some (errorsWithStack err)), s1)
    | Except.ok fr => openDataFinish env s1 (some fr) headers

/-- The results of `n` consecutive calls of `Read` on a csv reader. -/
def csvReadN (env : Env) : Nat → CsvReader → List (Except Error (List GoString))
  | 0, _ => []
  | n + 1, rd => (env.csvRead rd).1 :: csvReadN env n (env.csvRead rd).2

/-! ## loop-status.go -/

/-- The text of `fmt.Sprintf(format, a...)` for a format whose only verb is
`%.0f` and float64 operands; a verb without an operand prints `%!f(MISSING)`. -/
def Sprintf (env : Env) : GoString → List Float64 → GoString
  | [], _ => []
  | '%' :: '.' :: '0' :: 'f' :: rest, a :: as => env.fmtFloat0 a ++ Sprintf env rest as
  | '%' :: '.' :: '0' :: 'f' :: rest, [] =>
    ['%', '!', 'f', '(', 'M', 'I', 'S', 'S', 'I', 'N', 'G', ')'] ++ Sprintf env rest []
  | c :: rest, as => c :: Sprintf env rest as

/-- The text of `fmt.Sprintln(a...)` for string operands: the operands
separated by spaces, then a newline. -/
def Sprintln (a : List GoString) : GoString := List.intercalate [' '] a ++ ['\n']

/-- `func (b *Blaster) println(a ...interface{})`, for string operands. -/
def println (s : State) (a : List GoString) : State :=
  if s.b.Quiet || s.b.outWriter == none then s
  else
    match s.b.outWriter with
    | none => s
    | some w => s.emit (Event.write Printer.Fprintln w (Sprintln a))

/-- `func (b *Blaster) printf(format string, a ...interface{})`, for float64 operands. -/
def printf (env : Env) (s : State) (format : GoString) (a : List Float64) : State :=
  if s.b.Quiet || s.b.outWriter == none then s
  else
    match s.b.outWriter with
    | none => s
    | some w => s.emit (Event.write Printer.Fprintf w (Sprintf env format a))

/-- The raw string literal passed to `b.printf` in `printRatePrompt`. -/
def ratePromptFormat : GoString :=
  "\nCurrent rate is %.0f requests / second. Enter a new rate or press enter to view status.\n\nRate?\n".toList

/-- `func (b *Blaster) printRatePrompt()`. -/
def printRatePrompt (env : Env) (s : State) : State :=
  if s.b.inputReader == none then s
  else printf env s ratePromptFormat [s.b.Rate]

/-- `func (b *Blaster) PrintStatus(writer io.Writer)`: `fmt.Fprint(writer, b.Stats())`. -/
def PrintStatus (env : Env) (s : State) (writer : Nat) : State :=
  (s.emit Event.stats).emit (Event.write Printer.Fprint writer (env.stats (statsCalls s.trace)))

/-- `func (b *Blaster) printStatus(final bool)`. -/
def printStatus (env : Env) (s : State) (final : Bool) : State :=
  if s.b.Quiet || s.b.outWriter == none then s
  else
    match s.b.outWriter with
    | none => s
    | some w =>
      let s1 := PrintStatus env s w
      if !final then printRatePrompt env s1 else s1

/-- The three communications of the `select` statement, in source order:
`<-ctx.Done()`, `<-b.dataFinishedChannel`, `<-ticker.C`. -/
inductive SelCase where
  | ctxDone
  | dataFinished
  | tick
  deriving DecidableEq, Repr

/-- Which of the three channels can deliver at a wake-up. -/
structure Ready where
  ctxDone : Bool
  dataFinished : Bool
  tick : Bool
  deriving DecidableEq, Repr

/-- The cases a Go `select` without `default` may run at a wake-up: any one of
the communications that can proceed (the language picks among them by a
uniform pseudo-random choice; the source gives no case a priority). -/
def selectCases (rdy : Ready) : List SelCase :=
  (if rdy.ctxDone then [SelCase.ctxDone] else []) ++
  (if rdy.dataFinished then [SelCase.dataFinished] else []) ++
  (if rdy.tick then [SelCase.tick] else [])

/-- Whether the goroutine has returned or is waiting in `select`. -/
inductive TaskStatus where
  | waiting
  | exited
  deriving DecidableEq, Repr

/-- The `for { select { ... } }` loop of the goroutine, driven by the case that
`select` runs at each wake-up. -/
def statusLoop (env : Env) (s : State) : List SelCase → TaskStatus × State
  | [] => (TaskStatus.waiting, s)
  | SelCase.ctxDone :: _ => (TaskStatus.exited, s.emit Event.tickerStop)
  | SelCase.dataFinished :: _ => (TaskStatus.exited, s.emit Event.tickerStop)
  | SelCase.tick :: rest => statusLoop env (printStatus env s false) rest

/-- The goroutine started by `startStatusLoop`: the loop, and on return the
deferred calls in reverse order of their `defer` statements,
`b.println("Exiting status loop")` and then `b.mainWait.Done()`. -/
def statusTask (env : Env) (s : State) (wakes : List SelCase) : TaskStatus × State :=
  match statusLoop env s wakes with
  | (TaskStatus.exited, s1) =>
    (TaskStatus.exited, (println s1 ["Exiting status loop".toList]).emit Event.waitDone)
  | (TaskStatus.waiting, s1) => (TaskStatus.waiting, s1)

/-- `func (b *Blaster) startStatusLoop(ctx context.Context)` up to the `go`
statement; the flag tells whether the goroutine was started. -/
def startStatusLoop (s : State) : State × Bool :=
  if s.b.Quiet || s.b.outWriter == none then (s, false)
  else (((s.emit (Event.waitAdd 1)).emit (Event.newTicker 10)).emit Event.go, true)

/-- A run of the status loop: `startStatusLoop`, then the goroutine it started
(if any) driven by the given wake-ups. `none` when no goroutine was started. -/
def runStatusLoop (env : Env) (s : State) (wakes : List SelCase) : Option TaskStatus × State :=
  match startStatusLoop s with
  | (s1, true) =>
    match statusTask env s1 wakes with
    | (st, s2) => (some st, s2)
  | (s1, false) => (none, s1)

/-- The calls that one report `printStatus(final)` makes on sink `w` when
reporting is not suppressed (used to describe the trace of the loop). -/
def reportEvents (env : Env) (s : State) (w : Nat) (final : Bool) : List Event :=
  [Event.stats, Event.write Printer.Fprint w (env.stats (statsCalls s.trace))] ++
    (if final = false ∧ s.b.inputReader ≠ none then
      [Event.write Printer.Fprintf w (Sprintf env ratePromptFormat [s.b.Rate])]
    else [])

/-! ## A concrete environment -/

/-- The digits of `%.0f` for a float64: the nearest integer, ties to even. -/
def formatFloat0 (x : Float64) : GoString :=
  let sign := x.bits / 2 ^ 63 % 2
  let e := x.bits / 2 ^ 52 % 2 ^ 11
  let frac := x.bits % 2 ^ 52
  if e = 2047 then
    if frac ≠ 0 then ['N', 'a', 'N']
    else if sign = 1 then ['-', 'I', 'n', 'f'] else ['+', 'I', 'n', 'f']
  else
    let m := if e = 0 then frac else 2 ^ 52 + frac
    let n :=
      if 1075 ≤ e then m * 2 ^ (e - 1075)
      else
        let d := 2 ^ (if e = 0 then 1074 else 1075 - e)
        let q := m / d
        let r := m % d
        if d < 2 * r ∨ (2 * r = d ∧ q % 2 = 1) then q + 1 else q
    (if sign = 1 then ['-'] else []) ++ (Nat.repr n).toList

/-- Split a line at commas. -/
def splitComma : GoString → List GoString
  | [] => [[]]
  | c :: rest =>
    if c = ',' then [] :: splitComma rest
    else
      match splitComma rest with
      | [] => [[c]]
      | f :: fs => (c :: f) :: fs

/-- The next non-empty line of the input (without its terminator) and the
input after it; `none` at end of input. -/
def nextLine : GoString → GoString → Option (GoString × GoString)
  | [], acc => if acc = [] then none else some (acc, [])
  | c :: rest, acc =>
    if c = '\n' then
      if acc = [] ∨ acc = ['\r'] then nextLine rest []
      else some (if acc.getLast? = some '\r' then acc.dropLast else acc, rest)
    else nextLine rest (acc ++ [c])

/-- A csv `Read` for input without quoted fields, with the default settings of
`csv.NewReader` (comma separated, empty lines skipped, the first record fixes
the number of fields). A double quote is reported as a parse error. -/
def simpleCsvRead (rd : CsvReader) : Except Error (List GoString) × CsvReader :=
  match nextLine rd.r.data [] with
  | none => (Except.error (Error.plain "EOF".toList), { rd with r := { rd.r with data := [] } })
  | some (line, rest) =>
    let rd1 : CsvReader := { rd with r := { rd.r with data := rest } }
    if '"' ∈ line then
      (Except.error (Error.plain "bare \" in non-quoted-field".toList), rd1)
    else
      let fields := splitComma line
      if rd.FieldsPerRecord = 0 then
        (Except.ok fields, { rd1 with FieldsPerRecord := (fields.length : Int) })
      else if (fields.length : Int) ≠ rd.FieldsPerRecord ∧ 0 < rd.FieldsPerRecord then
        (Except.error (Error.plain "wrong number of fields".toList), rd1)
      else (Except.ok fields, rd1)

/-- An environment: one remote object `gs://bucket/object`, one local file
`data.csv`, every other open fails. -/
def sampleEnv : Env where
  gcsOpen := fun bucket handle =>
    if bucket = "bucket".toList ∧ handle = "object".toList then
      Except.ok (some { data := "x,y\n3,4\n".toList, closer := some 9 })
    else Except.error (Error.plain "storage: object doesn't exist".toList)
  osOpen := fun name =>
    if name = "data.csv".toList then
      Except.ok { data := "h1,h2\nv1,v2\n".toList, closer := some 7 }
    else Except.error (Error.plain ("open ".toList ++ name ++ ": no such file or directory".toList))
  csvRead := simpleCsvRead
  stats := fun k => "snapshot ".toList ++ (Nat.repr k).toList ++ ['\n']
  fmtFloat0 := formatFloat0

/-- A Blaster with nothing configured and an empty trace. -/
def emptyState : State where
  b := { Quiet := false, outWriter := none, inputReader := none, Rate := { bits := 0 },
         Headers := [], dataReader := none, dataCloser := none }
  trace := []

/-- A Blaster that owns closer 1 of a configured data source, and reports to sink 0. -/
def ownedState : State where
  b := { Quiet := false, outWriter := some 0, inputReader := none,
         Rate := { bits := 0x4024000000000000 },
         Headers := [], dataReader := some (csvNewReader { data := "k\nv\n".toList, closer := some 1 }),
         dataCloser := some 1 }
  trace := []


/-! ## Facts about the string helpers -/

theorem isPrefixOf_singleton (c d : Char) (cs : GoString) :
    List.isPrefixOf [c] (d :: cs) = decide (c = d) := by
  by_cases h : c = d <;> simp [List.isPrefixOf, h]

theorem indexAux_absent (c : Char) (s : GoString) (i : Nat) (h : c ∉ s) :
    indexAux [c] s i = -1 := by
  induction s generalizing i with
  | nil => simp [indexAux]
  | cons d cs ih =>
    unfold indexAux
    rw [isPrefixOf_singleton]
    have hd : c ≠ d := fun e => h (by simp [e])
    have hcs : c ∉ cs := fun e => h (by simp [e])
    simp only [hd, decide_False, Bool.false_eq_true, if_false]
    exact ih (i + 1) hcs

theorem indexAux_first (c : Char) (p o : GoString) (i : Nat) (h : c ∉ p) :
    indexAux [c] (p ++ c :: o) i = ((i + p.length : Nat) : Int) := by
  induction p generalizing i with
  | nil =>
    simp [indexAux, isPrefixOf_singleton]
  | cons d cs ih =>
    have hd : c ≠ d := fun e => h (by simp [e])
    have hcs : c ∉ cs := fun e => h (by simp [e])
    simp only [List.cons_append]
    unfold indexAux
    rw [isPrefixOf_singleton]
    simp only [hd, decide_False, Bool.false_eq_true, if_false]
    rw [ih (i + 1) hcs]
    simp only [List.length_cons]
    congr 1
    omega

theorem indexAux_present (c : Char) (s : GoString) (i : Nat) (h : c ∈ s) :
    0 ≤ indexAux [c] s i := by
  induction s generalizing i with
  | nil => simp at h
  | cons d cs ih =>
    unfold indexAux
    rw [isPrefixOf_singleton]
    by_cases hd : c = d
    · simp [hd]
    · simp only [hd, decide_False, Bool.false_eq_true, if_false]
      have hcs : c ∈ cs := by
        rcases List.mem_cons.mp h with e | e
        · exact absurd e hd
        · exact e
      exact ih (i + 1) hcs

theorem stringsContains_char (s : GoString) (c : Char) :
    stringsContains s [c] = true ↔ c ∈ s := by
  unfold stringsContains stringsIndex
  constructor
  · intro h
    by_contra hc
    rw [indexAux_absent c s 0 hc] at h
    simp at h
  · intro h
    simpa using indexAux_present c s 0 h

theorem stringsContains_char_false (s : GoString) (c : Char) (h : c ∉ s) :
    stringsContains s [c] = false := by
  cases hb : stringsContains s [c] with
  | false => rfl
  | true => exact absurd ((stringsContains_char s c).mp hb) h

theorem SetData_trace (s : State) (r : Option Reader) : (SetData s r).trace = s.trace := by
  unfold SetData
  cases r with
  | none => rfl
  | some rd => cases h : rd.closer <;> simp [h]

theorem SetData_reader (s : State) (r : Option Reader) :
    (SetData s r).b.dataReader = r.map csvNewReader := by
  unfold SetData
  cases r with
  | none => rfl
  | some rd => cases h : rd.closer <;> simp [h]

theorem SetData_closer (s : State) (r : Option Reader) :
    (SetData s r).b.dataCloser = r.bind Reader.closer := by
  unfold SetData
  cases r with
  | none => rfl
  | some rd => cases h : rd.closer <;> simp [h]

theorem ReadHeaders_trace (env : Env) (s : State) : (ReadHeaders env s).2.trace = s.trace := by
  unfold ReadHeaders
  cases hr : s.b.dataReader with
  | none => rfl
  | some rd =>
    simp only
    rcases hread : env.csvRead rd with ⟨res, rd1⟩
    cases res <;> rfl

theorem openDataFinish_trace (env : Env) (s : State) (r : Option Reader) (headers : Bool) :
    (openDataFinish env s r headers).2.trace = s.trace := by
  unfold openDataFinish
  cases headers with
  | false => simpa using SetData_trace s r
  | true =>
    have ht := ReadHeaders_trace env (SetData s r)
    rw [SetData_trace] at ht
    simp only [if_true]
    rcases hrh : ReadHeaders env (SetData s r) with ⟨out, s2⟩
    rw [hrh] at ht
    cases out with
    | returned err => cases err <;> exact ht
    | panicked => exact ht

theorem openData_inline_eq (env : Env) (s : State) (value : GoString) (headers : Bool)
    (h : '\n' ∈ value) :
    openData env s value headers =
      openDataFinish env s (some (stringsNewReader value)) headers := by
  have hne : value ≠ [] := by
    intro e
    rw [e] at h
    simp at h
  unfold openData
  rw [if_neg hne, (stringsContains_char value '\n').mpr h]
  simp

theorem gsScheme_hasPrefix (rest : GoString) :
    stringsHasPrefix (gsScheme ++ rest) gsScheme = true := by
  simp [stringsHasPrefix, gsScheme, List.isPrefixOf]

theorem gsScheme_trim (rest : GoString) :
    stringsTrimPrefix (gsScheme ++ rest) gsScheme = rest := by
  unfold stringsTrimPrefix
  rw [gsScheme_hasPrefix]
  simp [gsScheme]

theorem sliceTo_bucket (c o : GoString) (h : '/' ∉ c) :
    sliceTo (c ++ '/' :: o) (stringsIndex (c ++ '/' :: o) ['/']) = some c := by
  unfold stringsIndex
  rw [indexAux_first '/' c o 0 h]
  unfold sliceTo
  have hle : ((0 + c.length : Nat) : Int) ≤ ((c ++ '/' :: o).length : Int) := by
    simp only [List.length_append, List.length_cons]
    omega
  rw [if_pos ⟨by omega, hle⟩]
  simp

theorem sliceFrom_handle (c o : GoString) (h : '/' ∉ c) :
    sliceFrom (c ++ '/' :: o) (stringsIndex (c ++ '/' :: o) ['/'] + 1) = some o := by
  unfold stringsIndex
  rw [indexAux_first '/' c o 0 h]
  unfold sliceFrom
  have hle : ((0 + c.length : Nat) : Int) + 1 ≤ ((c ++ '/' :: o).length : Int) := by
    simp only [List.length_append, List.length_cons]
    omega
  rw [if_pos ⟨by omega, hle⟩]
  have hn : (((0 + c.length : Nat) : Int) + 1).toNat = c.length + 1 := by omega
  rw [hn]
  simp

theorem openData_gs_eq (env : Env) (s : State) (c o : GoString) (headers : Bool)
    (hc : '/' ∉ c) (hnl : '\n' ∉ gsScheme ++ c ++ '/' :: o) :
    openData env s (gsScheme ++ c ++ '/' :: o) headers =
      match env.gcsOpen c o with
      | Except.error err =>
        (Outcome.returned (some (errorsWithStack err)), s.emit (Event.gcsOpen c o))
      | Except.ok gr => openDataFinish env (s.emit (Event.gcsOpen c o)) gr headers := by
  have hne : gsScheme ++ c ++ '/' :: o ≠ [] := by simp [gsScheme]
  unfold openData
  rw [if_neg hne, stringsContains_char_false _ _ hnl]
  simp only [Bool.false_eq_true, if_false, List.append_assoc]
  rw [gsScheme_hasPrefix, gsScheme_trim]
  simp only [if_true]
  rw [sliceTo_bucket c o hc, sliceFrom_handle c o hc]

theorem openData_local_eq (env : Env) (s : State) (value : GoString) (headers : Bool)
    (hne : value ≠ []) (hnl : '\n' ∉ value) (hgs : stringsHasPrefix value gsScheme = false) :
    openData env s value headers =
      match env.osOpen value with
      | Except.error err =>
        (Outcome.returned (some (errorsWithStack err)), s.emit (Event.osOpen value))
      | Except.ok fr => openDataFinish env (s.emit (Event.osOpen value)) (some fr) headers := by
  unfold openData
  rw [if_neg hne, stringsContains_char_false _ _ hnl, hgs]
  simp

/-! ## data.go: the claims -/

/-- C1, as stated, fails: the state `ownedState` owns closer 1, which has not
been released, and after `SetData(nil)` its release count is still 0, not 1. -/
theorem SetData_release_counterexample :
    ownedState.b.dataCloser = some 1 ∧ closeCount 1 ownedState.trace = 0 ∧
      closeCount 1 (SetData ownedState none).trace ≠ 1 := by
  decide

/-- C1, amended: when closer `c` is owned, `SetData(r)` replaces the reader and
closer fields (nil clears both; otherwise a new csv reader over `r`, and the
closer of `r` if it has one) and makes no call at all on an external object:
`Close` is not invoked and the release count of `c` is unchanged. -/
theorem SetData_replaces_without_release (s : State) (c : Nat) (r : Option Reader)
    (h : s.b.dataCloser = some c) :
    (SetData s r).trace = s.trace ∧
      closeCount c (SetData s r).trace = closeCount c s.trace ∧
      (SetData s r).b.dataReader = r.map csvNewReader ∧
      (SetData s r).b.dataCloser = r.bind Reader.closer := by
  have _ := h
  refine ⟨SetData_trace s r, ?_, SetData_reader s r, SetData_closer s r⟩
  rw [SetData_trace]

/-- Witness of `SetData_replaces_without_release`: replacing the source of
`ownedState` by a reader that is itself a closer (handle 2). -/
theorem SetData_replaces_without_release_witness :
    ownedState.b.dataCloser = some 1 ∧
      closeCount 1 (SetData ownedState (some { data := ['x', '\n'], closer := some 2 })).trace = 0 ∧
      (SetData ownedState (some { data := ['x', '\n'], closer := some 2 })).b.dataCloser
        = some 2 :=
  ⟨by decide,
    (SetData_replaces_without_release ownedState 1
      (some { data := ['x', '\n'], closer := some 2 }) (by decide)).2.1,
    (SetData_replaces_without_release ownedState 1
      (some { data := ['x', '\n'], closer := some 2 }) (by decide)).2.2.2⟩

/-- C2: for a location that contains a newline, `openData` configures the csv
reader over `strings.NewReader(value)`, a stream whose bytes are the string and
which is no closer (advanced by the one header read when `headers` is set),
leaves `dataCloser` nil, makes no call on an external object (neither
`b.gcs.open` nor `os.Open`), and does not panic. -/
theorem openData_literal_stream (env : Env) (s : State) (value : GoString) (headers : Bool)
    (h : '\n' ∈ value) :
    (stringsNewReader value).data = value ∧
      (stringsNewReader value).closer = none ∧
      (openData env s value headers).2.b.dataReader =
        some (if headers then (env.csvRead (csvNewReader (stringsNewReader value))).2
              else csvNewReader (stringsNewReader value)) ∧
      (openData env s value headers).2.b.dataCloser = none ∧
      (openData env s value headers).2.trace = s.trace ∧
      (openData env s value headers).1 ≠ Outcome.panicked := by
  rw [openData_inline_eq env s value headers h]
  refine ⟨rfl, rfl, ?_, ?_, openDataFinish_trace _ _ _ _, ?_⟩
  all_goals
    unfold openDataFinish ReadHeaders SetData stringsNewReader
    cases headers with
    | false => simp
    | true =>
      simp only [if_true]
      rcases hread : env.csvRead (csvNewReader { data := value, closer := none })
        with ⟨res, rd1⟩
      cases res <;> simp

/-- Witness of `openData_literal_stream`: a literal that also starts with `gs://`. -/
theorem openData_literal_stream_witness :
    '\n' ∈ "gs://a,b\n1,2\n".toList ∧
      (openData sampleEnv ownedState "gs://a,b\n1,2\n".toList false).2.b.dataReader =
        some (csvNewReader (stringsNewReader "gs://a,b\n1,2\n".toList)) ∧
      (openData sampleEnv ownedState "gs://a,b\n1,2\n".toList false).2.b.dataCloser = none ∧
      (openData sampleEnv ownedState "gs://a,b\n1,2\n".toList false).2.trace = [] :=
  ⟨by decide,
    (openData_literal_stream sampleEnv ownedState "gs://a,b\n1,2\n".toList false (by decide)).2.2.1,
    (openData_literal_stream sampleEnv ownedState "gs://a,b\n1,2\n".toList false (by decide)).2.2.2.1,
    (openData_literal_stream sampleEnv ownedState "gs://a,b\n1,2\n".toList false (by decide)).2.2.2.2.1⟩

/-- C3: for an inline location whose csv reading yields the record `h` and then
the records `rest`, `openData` with `headers = true` returns nil, stores `h` in
`Headers`, and leaves the reader after exactly one `Read`, so that the next
reads yield `rest` in order; with `headers = false` it returns nil, leaves
`Headers` as it was, and the first read on the configured reader yields `h`. -/
theorem openData_inline_headers (env : Env) (s : State) (value : GoString)
    (h : List GoString) (rest : List (List GoString))
    (hnl : '\n' ∈ value)
    (hparse : csvReadN env (rest.length + 1) (csvNewReader (stringsNewReader value))
      = (h :: rest).map Except.ok) :
    ((openData env s value true).1 = Outcome.returned none ∧
        (openData env s value true).2.b.Headers = h ∧
        (openData env s value true).2.b.dataReader =
          some (env.csvRead (csvNewReader (stringsNewReader value))).2 ∧
        csvReadN env rest.length (env.csvRead (csvNewReader (stringsNewReader value))).2
          = rest.map Except.ok) ∧
      ((openData env s value false).1 = Outcome.returned none ∧
        (openData env s value false).2.b.Headers = s.b.Headers ∧
        (openData env s value false).2.b.dataReader =
          some (csvNewReader (stringsNewReader value)) ∧
        (env.csvRead (csvNewReader (stringsNewReader value))).1 = Except.ok h) := by
  simp only [csvReadN, List.map_cons, List.cons.injEq] at hparse
  obtain ⟨hfirst, hrest⟩ := hparse
  rw [openData_inline_eq env s value true hnl, openData_inline_eq env s value false hnl]
  refine ⟨⟨?_, ?_, ?_, hrest⟩, ⟨?_, ?_, ?_, hfirst⟩⟩
  all_goals
    unfold openDataFinish ReadHeaders SetData stringsNewReader
    unfold stringsNewReader at hfirst
    try simp only [if_true]
    rcases hread : env.csvRead (csvNewReader { data := value, closer := none })
      with ⟨res, rd1⟩
    rw [hread] at hfirst
    simp only at hfirst
    subst hfirst
    simp

/-- Witness of `openData_inline_headers`: the location `"a,b\n1,2\n"` gives
`Headers = ["a","b"]`, and the next read gives `["1","2"]`. -/
theorem openData_inline_headers_witness :
    '\n' ∈ "a,b\n1,2\n".toList ∧
      csvReadN sampleEnv 2 (csvNewReader (stringsNewReader "a,b\n1,2\n".toList))
        = [Except.ok ["a".toList, "b".toList], Except.ok ["1".toList, "2".toList]] ∧
      (openData sampleEnv emptyState "a,b\n1,2\n".toList true).1 = Outcome.returned none ∧
      (openData sampleEnv emptyState "a,b\n1,2\n".toList true).2.b.Headers
        = ["a".toList, "b".toList] ∧
      csvReadN sampleEnv 1
          (sampleEnv.csvRead (csvNewReader (stringsNewReader "a,b\n1,2\n".toList))).2
        = [Except.ok ["1".toList, "2".toList]] :=
  ⟨by decide, rfl,
    (openData_inline_headers sampleEnv emptyState "a,b\n1,2\n".toList
      ["a".toList, "b".toList] [["1".toList, "2".toList]] (by decide) rfl).1.1,
    (openData_inline_headers sampleEnv emptyState "a,b\n1,2\n".toList
      ["a".toList, "b".toList] [["1".toList, "2".toList]] (by decide) rfl).1.2.1,
    (openData_inline_headers sampleEnv emptyState "a,b\n1,2\n".toList
      ["a".toList, "b".toList] [["1".toList, "2".toList]] (by decide) rfl).1.2.2.2⟩

/-- C4: for the location `"gs://" ++ c ++ "/" ++ o` without a newline and with
no `/` in `c`, the calls `openData` makes on external objects are exactly one
`b.gcs.open` with bucket `c` and handle `o`; in particular `os.Open` is not
called. -/
theorem openData_gs_fetch (env : Env) (s : State) (c o : GoString) (headers : Bool)
    (hc : '/' ∉ c) (hnl : '\n' ∉ gsScheme ++ c ++ '/' :: o) :
    (openData env s (gsScheme ++ c ++ '/' :: o) headers).2.trace
      = s.trace ++ [Event.gcsOpen c o] := by
  rw [openData_gs_eq env s c o headers hc hnl]
  cases hopen : env.gcsOpen c o with
  | error err => rfl
  | ok gr =>
    simp only
    rw [openDataFinish_trace]
    rfl

/-- Witness of `openData_gs_fetch`: `gs://bucket/object` is split into
`("bucket","object")` and `gs://bucket/a/b` into `("bucket","a/b")`. -/
theorem openData_gs_fetch_witness :
    (openData sampleEnv emptyState "gs://bucket/object".toList true).2.trace
        = [Event.gcsOpen "bucket".toList "object".toList] ∧
      (openData sampleEnv emptyState "gs://bucket/a/b".toList false).2.trace
        = [Event.gcsOpen "bucket".toList "a/b".toList] :=
  ⟨openData_gs_fetch sampleEnv emptyState "bucket".toList "object".toList true
      (by decide) (by decide),
    openData_gs_fetch sampleEnv emptyState "bucket".toList "a/b".toList false
      (by decide) (by decide)⟩

/-- C5: when the location is a local path (not empty, no newline, no `gs://`
marker) and `os.Open` fails with `e`, or the location is
`"gs://" ++ c ++ "/" ++ o` (no newline, no `/` in `c`) and `b.gcs.open` fails
with `e`, then `openData` returns `errors.WithStack(e)`, whose cause is the
cause of `e`, the Blaster is exactly what it was (reader, closer and headers
included), and the open call is the only call made. -/
theorem openData_open_failure (env : Env) (s : State) (value : GoString) (headers : Bool)
    (e : Error) (hne : value ≠ []) (hnl : '\n' ∉ value)
    (hfail : (stringsHasPrefix value gsScheme = false ∧ env.osOpen value = Except.error e) ∨
      (∃ c o, value = gsScheme ++ c ++ '/' :: o ∧ '/' ∉ c ∧ env.gcsOpen c o = Except.error e)) :
    (openData env s value headers).1 = Outcome.returned (some (errorsWithStack e)) ∧
      errorsCause (errorsWithStack e) = errorsCause e ∧
      (openData env s value headers).2.b = s.b ∧
      (∃ ev, (openData env s value headers).2.trace = s.trace ++ [ev]) := by
  rcases hfail with ⟨hgs, hopen⟩ | ⟨c, o, hv, hc, hopen⟩
  · rw [openData_local_eq env s value headers hne hnl hgs, hopen]
    exact ⟨rfl, rfl, rfl, _, rfl⟩
  · subst hv
    rw [openData_gs_eq env s c o headers hc hnl, hopen]
    exact ⟨rfl, rfl, rfl, _, rfl⟩

/-- Witness of `openData_open_failure`: a local path that does not exist, with
a data source already configured. -/
theorem openData_open_failure_witness :
    (openData sampleEnv ownedState "missing.csv".toList true).1
        = Outcome.returned (some (errorsWithStack
            (Error.plain "open missing.csv: no such file or directory".toList))) ∧
      (openData sampleEnv ownedState "missing.csv".toList true).2.b = ownedState.b :=
  ⟨(openData_open_failure sampleEnv ownedState "missing.csv".toList true
      (Error.plain "open missing.csv: no such file or directory".toList)
      (by decide) (by decide) (Or.inl ⟨by decide, rfl⟩)).1,
    (openData_open_failure sampleEnv ownedState "missing.csv".toList true
      (Error.plain "open missing.csv: no such file or directory".toList)
      (by decide) (by decide) (Or.inl ⟨by decide, rfl⟩)).2.2.1⟩

/-- C6, the failing input: on `"gs://bucket"` (the marker, no newline, no `/`
after the marker) `strings.Index` returns -1, the slice expression
`name[:-1]` is out of range, and `openData` panics instead of returning, for
either value of the header flag and before any call on the remote opener. -/
theorem openData_gs_without_slash_panics :
    stringsIndex (stringsTrimPrefix "gs://bucket".toList gsScheme) ['/'] = -1 ∧
      openData sampleEnv emptyState "gs://bucket".toList false
        = (Outcome.panicked, emptyState) ∧
      openData sampleEnv emptyState "gs://bucket".toList true
        = (Outcome.panicked, emptyState) := by
  decide

/-! ## loop-status.go: facts shared by the claims -/

theorem suppressed_cond (s : State) (h : s.b.Quiet = true ∨ s.b.outWriter = none) :
    (s.b.Quiet || s.b.outWriter == none) = true := by
  rcases h with h | h <;> simp [h]

theorem active_cond (s : State) (w : Nat) (hq : s.b.Quiet = false)
    (hw : s.b.outWriter = some w) :
    (s.b.Quiet || s.b.outWriter == none) = false := by
  simp [hq, hw]

theorem Sprintf_ratePrompt (env : Env) (r : Float64) :
    Sprintf env ratePromptFormat [r] =
      "\nCurrent rate is ".toList ++ env.fmtFloat0 r ++
        " requests / second. Enter a new rate or press enter to view status.\n\nRate?\n".toList := by
  rfl

theorem printStatus_active (env : Env) (s : State) (w : Nat) (final : Bool)
    (hq : s.b.Quiet = false) (hw : s.b.outWriter = some w) :
    printStatus env s final = { b := s.b, trace := s.trace ++ reportEvents env s w final } := by
  unfold printStatus
  rw [active_cond s w hq hw]
  simp only [Bool.false_eq_true, if_false, hw]
  unfold reportEvents PrintStatus printRatePrompt printf State.emit
  cases final with
  | true => simp
  | false =>
    cases hin : s.b.inputReader with
    | none => simp
    | some i => simp [hq, hw]

theorem reportEvents_kind (env : Env) (s : State) (w : Nat) (final : Bool) :
    ∀ e ∈ reportEvents env s w final,
      e = Event.stats ∨ ∃ text, e = Event.write Printer.Fprint w text ∨
        e = Event.write Printer.Fprintf w text := by
  intro e he
  unfold reportEvents at he
  split_ifs at he
  · simp only [List.cons_append, List.nil_append, List.mem_cons, List.mem_singleton,
      List.not_mem_nil, or_false] at he
    rcases he with h | h | h
    · exact Or.inl h
    · exact Or.inr ⟨_, Or.inl h⟩
    · exact Or.inr ⟨_, Or.inr h⟩
  · simp only [List.append_nil, List.mem_cons, List.mem_singleton, List.not_mem_nil,
      or_false] at he
    rcases he with h | h
    · exact Or.inl h
    · exact Or.inr ⟨_, Or.inl h⟩

theorem statusLoop_ticks (env : Env) (w : Nat) (t : SelCase) (ht : t ≠ SelCase.tick)
    (n : Nat) (s : State) (hq : s.b.Quiet = false) (hw : s.b.outWriter = some w) :
    ∃ mid : List Event,
      statusLoop env s (List.replicate n SelCase.tick ++ [t])
        = (TaskStatus.exited, { b := s.b, trace := s.trace ++ mid ++ [Event.tickerStop] }) ∧
      (∀ e ∈ mid, e = Event.stats ∨ ∃ text, e = Event.write Printer.Fprint w text ∨
        e = Event.write Printer.Fprintf w text) ∧
      (n = 0 → mid = []) := by
  induction n generalizing s with
  | zero =>
    refine ⟨[], ?_, by simp, fun _ => rfl⟩
    cases t with
    | tick => exact absurd rfl ht
    | ctxDone => simp [statusLoop, State.emit]
    | dataFinished => simp [statusLoop, State.emit]
  | succ k ih =>
    have hstep : statusLoop env s (List.replicate (k + 1) SelCase.tick ++ [t])
        = statusLoop env (printStatus env s false) (List.replicate k SelCase.tick ++ [t]) := by
      simp [List.replicate_succ, statusLoop]
    rw [hstep, printStatus_active env s w false hq hw]
    obtain ⟨mid, hrun, hkind, _⟩ :=
      ih { b := s.b, trace := s.trace ++ reportEvents env s w false } hq hw
    refine ⟨reportEvents env s w false ++ mid, ?_, ?_, ?_⟩
    · rw [hrun]
      simp [List.append_assoc]
    · intro e he
      rcases List.mem_append.mp he with h | h
      · exact reportEvents_kind env s w false e h
      · exact hkind e h
    · intro h0
      omega

theorem sinkContent_append (w : Nat) (xs ys : List Event) :
    sinkContent w (xs ++ ys) = sinkContent w xs ++ sinkContent w ys := by
  induction xs with
  | nil => simp [sinkContent]
  | cons e rest ih =>
    cases e <;> simp [sinkContent, ih]
    split_ifs <;> simp

/-! ## loop-status.go: the claims -/

/-- C7: with `Quiet` set or no output sink, each of `startStatusLoop`,
`printStatus(final)`, `printRatePrompt`, `println` and `printf` leaves the
Blaster and the trace exactly as they were: nothing is written, `b.Stats()` is
not called, the wait group is not touched and no goroutine is started. -/
theorem suppressed_is_noop (env : Env) (s : State)
    (h : s.b.Quiet = true ∨ s.b.outWriter = none) :
    startStatusLoop s = (s, false) ∧
      (∀ final, printStatus env s final = s) ∧
      printRatePrompt env s = s ∧
      (∀ a, println s a = s) ∧
      (∀ format a, printf env s format a = s) ∧
      (∀ wakes, runStatusLoop env s wakes = (none, s)) := by
  have hc := suppressed_cond s h
  have hpf : ∀ format a, printf env s format a = s := by
    intro format a
    unfold printf
    rw [hc]
    rfl
  have hstart : startStatusLoop s = (s, false) := by
    unfold startStatusLoop
    rw [hc]
    rfl
  refine ⟨hstart, ?_, ?_, ?_, hpf, ?_⟩
  · intro final
    unfold printStatus
    rw [hc]
    rfl
  · unfold printRatePrompt
    split_ifs
    · rfl
    · exact hpf _ _
  · intro a
    unfold println
    rw [hc]
    rfl
  · intro wakes
    unfold runStatusLoop
    rw [hstart]

/-- Witness of `suppressed_is_noop`: `ownedState` with `Quiet` set. -/
theorem suppressed_is_noop_witness :
    startStatusLoop { ownedState with b := { ownedState.b with Quiet := true } }
        = ({ ownedState with b := { ownedState.b with Quiet := true } }, false) ∧
      printStatus sampleEnv { ownedState with b := { ownedState.b with Quiet := true } } false
        = { ownedState with b := { ownedState.b with Quiet := true } } :=
  ⟨(suppressed_is_noop sampleEnv
      { ownedState with b := { ownedState.b with Quiet := true } } (Or.inl rfl)).1,
    (suppressed_is_noop sampleEnv
      { ownedState with b := { ownedState.b with Quiet := true } } (Or.inl rfl)).2.1 false⟩

/-- C8: started with `Quiet = false` and sink `w`, and woken by `n` ticks and
then one termination case `t`, the run registers with the wait group, creates
the ticker, starts the goroutine, and the goroutine exits; its calls are the
calls `mid` of the reports (only `b.Stats()` and `Fprint`/`Fprintf` writes,
none when `n = 0`), then `ticker.Stop()`, then the single `Fprintln` of
`"Exiting status loop\n"` as its last write, then `b.mainWait.Done()`. With no
tick the sink receives exactly `"Exiting status loop\n"`. -/
theorem statusLoop_exit_line (env : Env) (s : State) (w n : Nat) (t : SelCase)
    (hq : s.b.Quiet = false) (hw : s.b.outWriter = some w) (ht : t ≠ SelCase.tick) :
    ∃ mid : List Event,
      runStatusLoop env s (List.replicate n SelCase.tick ++ [t])
        = (some TaskStatus.exited,
            { b := s.b,
              trace := s.trace ++ [Event.waitAdd 1, Event.newTicker 10, Event.go] ++ mid ++
                [Event.tickerStop,
                 Event.write Printer.Fprintln w "Exiting status loop\n".toList,
                 Event.waitDone] }) ∧
      (∀ e ∈ mid, e = Event.stats ∨ ∃ text, e = Event.write Printer.Fprint w text ∨
        e = Event.write Printer.Fprintf w text) ∧
      (n = 0 → mid = []) ∧
      (n = 0 → s.b.inputReader = none →
        sinkContent w (runStatusLoop env s (List.replicate n SelCase.tick ++ [t])).2.trace
          = sinkContent w s.trace ++ "Exiting status loop\n".toList) := by
  have hstart : startStatusLoop s
      = ({ b := s.b, trace := s.trace ++ [Event.waitAdd 1, Event.newTicker 10, Event.go] },
          true) := by
    unfold startStatusLoop
    rw [active_cond s w hq hw]
    simp [State.emit]
  obtain ⟨mid, hrun, hkind, hzero⟩ := statusLoop_ticks env w t ht n
    { b := s.b, trace := s.trace ++ [Event.waitAdd 1, Event.newTicker 10, Event.go] } hq hw
  have hfull : runStatusLoop env s (List.replicate n SelCase.tick ++ [t])
      = (some TaskStatus.exited,
          { b := s.b,
            trace := s.trace ++ [Event.waitAdd 1, Event.newTicker 10, Event.go] ++ mid ++
              [Event.tickerStop,
               Event.write Printer.Fprintln w "Exiting status loop\n".toList,
               Event.waitDone] }) := by
    unfold runStatusLoop statusTask
    rw [hstart]
    simp only
    rw [hrun]
    simp only
    unfold println
    simp only
    rw [show (s.b.Quiet || s.b.outWriter == none) = false from active_cond s w hq hw]
    simp only [Bool.false_eq_true, if_false, hw]
    simp [State.emit, Sprintln, List.intercalate]
  refine ⟨mid, hfull, hkind, hzero, ?_⟩
  intro h0 _
  rw [hfull, hzero h0]
  simp [sinkContent_append, sinkContent]

/-- Witness of `statusLoop_exit_line`: sink 0 starts empty, there is no input
source, cancellation arrives before any tick; the sink then holds exactly
`"Exiting status loop\n"`. -/
theorem statusLoop_exit_line_witness :
    sinkContent 0 (runStatusLoop sampleEnv ownedState [SelCase.ctxDone]).2.trace
      = "Exiting status loop\n".toList := by
  obtain ⟨_, _, _, _, hsink⟩ :=
    statusLoop_exit_line sampleEnv ownedState 0 0 SelCase.ctxDone rfl rfl (by decide)
  exact hsink rfl rfl

/-- C9: with `Quiet = false` and sink `w`, `printStatus(true)` calls `b.Stats()`
and writes its text with `Fprint`, nothing else; `printStatus(false)` does the
same and then, exactly when an input source is configured, writes the rate
prompt with `Fprintf`. The prompt text consists of the five newline-separated
segments: empty, the line with the rate rendered by `%.0f`, empty, `Rate?`,
empty (so it begins with a newline and ends with the newline after `Rate?`). -/
theorem printStatus_report (env : Env) (s : State) (w : Nat)
    (hq : s.b.Quiet = false) (hw : s.b.outWriter = some w) :
    printStatus env s true
        = { b := s.b,
            trace := s.trace ++
              [Event.stats, Event.write Printer.Fprint w (env.stats (statsCalls s.trace))] } ∧
      (s.b.inputReader = none → printStatus env s false = printStatus env s true) ∧
      (s.b.inputReader ≠ none →
        printStatus env s false
          = { b := s.b,
              trace := s.trace ++
                [Event.stats, Event.write Printer.Fprint w (env.stats (statsCalls s.trace)),
                 Event.write Printer.Fprintf w
                   (List.intercalate ['\n']
                     [[],
                      "Current rate is ".toList ++ env.fmtFloat0 s.b.Rate ++
                        " requests / second. Enter a new rate or press enter to view status.".toList,
                      [],
                      "Rate?".toList,
                      []])] }) := by
  refine ⟨?_, ?_, ?_⟩
  · rw [printStatus_active env s w true hq hw]
    simp [reportEvents]
  · intro hin
    rw [printStatus_active env s w true hq hw, printStatus_active env s w false hq hw]
    simp [reportEvents, hin]
  · intro hin
    rw [printStatus_active env s w false hq hw]
    simp only [reportEvents, hin, ne_eq, not_false_eq_true, and_self, if_true,
      Sprintf_ratePrompt]
    simp [List.intercalate, List.intersperse]

/-- Witness of `printStatus_report`: rate 10, sink 0, input source 3. -/
theorem printStatus_report_witness :
    printStatus sampleEnv { ownedState with b := { ownedState.b with inputReader := some 3 } } false
      = { b := { ownedState.b with inputReader := some 3 },
          trace :=
            [Event.stats, Event.write Printer.Fprint 0 "snapshot 0\n".toList,
             Event.write Printer.Fprintf 0
               "\nCurrent rate is 10 requests / second. Enter a new rate or press enter to view status.\n\nRate?\n".toList] } :=
  ((printStatus_report sampleEnv
      { ownedState with b := { ownedState.b with inputReader := some 3 } } 0 rfl rfl).2.2
    (by decide)).trans (by decide)

/-- C10, as stated, fails: with cancellation and a tick both ready, `select`
may run the tick case, and that step emits a progress report. -/
theorem select_tie_counterexample :
    SelCase.tick ∈ selectCases { ctxDone := true, dataFinished := false, tick := true } ∧
      ¬ (∀ c ∈ selectCases { ctxDone := true, dataFinished := false, tick := true },
          c ≠ SelCase.tick) ∧
      statusLoop sampleEnv ownedState [SelCase.tick]
        = (TaskStatus.waiting,
            { b := ownedState.b,
              trace := [Event.stats, Event.write Printer.Fprint 0 "snapshot 0\n".toList] }) := by
  decide

/-- C10, amended: at a wake-up `select` runs a case whose channel is ready,
any of them. With a termination signal and a tick both ready, both the tick
case and a termination case can be run. The tick case (the only one that
reports) is run only when the tick is ready; when the tick is not ready the
step stops the ticker and leaves the loop without a report. -/
theorem select_runs_a_ready_case (env : Env) (s : State) (rdy : Ready) (c : SelCase)
    (hc : c ∈ selectCases rdy) :
    (c = SelCase.ctxDone → rdy.ctxDone = true) ∧
      (c = SelCase.dataFinished → rdy.dataFinished = true) ∧
      (c = SelCase.tick → rdy.tick = true) ∧
      (rdy.tick = false →
        statusLoop env s [c] = (TaskStatus.exited, s.emit Event.tickerStop)) ∧
      ((rdy.ctxDone = true ∨ rdy.dataFinished = true) → rdy.tick = true →
        SelCase.tick ∈ selectCases rdy ∧
          ∃ c1 ∈ selectCases rdy, c1 ≠ SelCase.tick ∧
            statusLoop env s [c1] = (TaskStatus.exited, s.emit Event.tickerStop)) := by
  obtain ⟨rc, rd, rt⟩ := rdy
  cases rc <;> cases rd <;> cases rt <;> cases c <;>
    simp [selectCases, statusLoop] at hc ⊢

/-- Witness of `select_runs_a_ready_case`: only the completion signal is ready. -/
theorem select_runs_a_ready_case_witness :
    statusLoop sampleEnv ownedState [SelCase.dataFinished]
      = (TaskStatus.exited, ownedState.emit Event.tickerStop) :=
  (select_runs_a_ready_case sampleEnv ownedState
    { ctxDone := false, dataFinished := true, tick := false } SelCase.dataFinished
    (by decide)).2.2.2.1 rfl

end Blast
